import Mathlib

/-!
Verification of the CrazyJumpy simulation core against its specification.

The development shallowly embeds the charge-and-bounce timing engine
(`src/unnamed/part_001`, class `ChargingState`), the health collaborator
(`src/unnamed/part_002`, class `SlimeHealthManager`), the monster director
(`src/src/objects/Pickup.ts`, class `MonsterManager`) and the deformable
ground field (`src/src/objects/Ground.ts`, class `Ground`) into Lean.

Numbers are modelled as rationals.  The transcendental library functions
used by the source (`Math.log2`, `Math.log10`, `Math.exp`, `Math.sqrt`)
are not rational-valued, so each definition that needs one takes it as an
explicit function argument; theorems assume only the elementary facts of
the real function that the property actually uses (monotonicity,
positivity, boundedness), and those assumptions are discharged in the
witnesses with concrete functions enjoying the same facts.
-/

namespace CrazyJumpy

/-- Phaser.Math.Clamp(value, lo, hi) = Math.max(lo, Math.min(hi, value)). -/
def clampQ (v lo hi : ℚ) : ℚ := max lo (min hi v)

/-- The three release qualities of a charge cycle. -/
inductive Rating where
  | PERFECT
  | NORMAL
  | FAILED
deriving DecidableEq, Repr

/-- The `GameConfig.ground` parameters read by `ChargingState`, with the
fallback defaults that the source supplies at each read site
(`ground.X ?? default`).  `baseLaunchVelocity`, `hardCapVelocity` and
`gravity` are read without a fallback, so they stay abstract fields. -/
structure GroundCfg where
  settleEps : ℚ
  deadEfficiency : ℚ
  sweetHoldGrace0 : ℚ
  sweetHoldGraceMin : ℚ
  softCapVelocity : ℚ
  softCapFactor : ℚ
  baseLaunchVelocity : ℚ
  hardCapVelocity : ℚ
  gravity : ℚ
deriving DecidableEq, Repr

/-- The fallback defaults from `src/unnamed/part_001`
(settleEps 0.5, deadEfficiency 0.05, sweetHoldGrace0 0.08,
sweetHoldGraceMin 0.02, softCapVelocity 2600, softCapFactor 0.25); the
three fields without a source fallback are given representative values
(gravity 2000, base velocity 900, hard cap 4200). -/
def defaultGroundCfg : GroundCfg where
  settleEps := 0.5
  deadEfficiency := 0.05
  sweetHoldGrace0 := 0.08
  sweetHoldGraceMin := 0.02
  softCapVelocity := 2600
  softCapFactor := 0.25
  baseLaunchVelocity := 900
  hardCapVelocity := 4200
  gravity := 2000

/-- The `Slime` fields consulted by the release path of `ChargingState`
(`src/unnamed/part_001`, `tryLaunchActiveOrSettle` and
`launchActiveControlled`). -/
structure ChargeState where
  currentCompression : ℚ
  targetCompression : ℚ
  reachedPeak : Bool
  isInYellowZone : Bool
  postPeakHoldTime : ℚ
  holdLockout : Bool
  chargeEfficiency : ℚ
  landingDifficulty : ℚ
  perfectStreak : ℕ
  lastApexHeight : ℚ
  landingFallDistance : ℚ
  landingFastFallDistance : ℚ
deriving DecidableEq, Repr

/-- Dynamic sweet window, `Phaser.Math.Clamp(sweet0 / diff, sweetMin, sweet0)`
(part_001 lines 375-378). -/
def sweetGraceEff (cfg : GroundCfg) (s : ChargeState) : ℚ :=
  clampQ (cfg.sweetHoldGrace0 / s.landingDifficulty) cfg.sweetHoldGraceMin cfg.sweetHoldGrace0

/-- The rating decision of `launchActiveControlled` (part_001 lines 365-392):
FAILED on hold lockout or dead efficiency; PERFECT in the yellow zone before
the peak, or within the dynamic sweet grace after the peak; NORMAL otherwise. -/
def launchRating (cfg : GroundCfg) (s : ChargeState) : Rating :=
  let proximity := s.currentCompression / max 0.000001 s.targetCompression
  if s.holdLockout = true ∨ s.chargeEfficiency ≤ cfg.deadEfficiency then
    Rating.FAILED
  else if (s.isInYellowZone = true ∧ s.reachedPeak = false) ∨
      (0.9 < proximity ∧ s.reachedPeak = false) then
    Rating.PERFECT
  else if s.reachedPeak = true ∧ s.postPeakHoldTime ≤ sweetGraceEff cfg s then
    Rating.PERFECT
  else
    Rating.NORMAL

/-- How a release attempt ends: settling back to idle (a failed cycle, no
launch) or launching with a computed rating. -/
inductive ReleaseOutcome where
  | settled
  | launched (r : Rating)
deriving DecidableEq, Repr

/-- Outcome of `tryLaunchActiveOrSettle` (part_001 lines 332-355): settle when
compression is below `settleEps`, when `holdLockout` is set, or when
`chargeEfficiency` is at or below `deadEfficiency`; otherwise launch with the
rating computed by `launchActiveControlled`. -/
def tryLaunchOutcome (cfg : GroundCfg) (s : ChargeState) : ReleaseOutcome :=
  if s.currentCompression ≤ cfg.settleEps then ReleaseOutcome.settled
  else if s.holdLockout = true then ReleaseOutcome.settled
  else if s.chargeEfficiency ≤ cfg.deadEfficiency then ReleaseOutcome.settled
  else ReleaseOutcome.launched (launchRating cfg s)

/-- The `perfectStreak` value after `tryLaunchActiveOrSettle` returns
(part_001 lines 332-355 and 405-410): the two first settle guards reset the
streak; the dead-efficiency guard returns without touching it; a launch
increments on PERFECT and resets otherwise. -/
def streakAfterRelease (cfg : GroundCfg) (s : ChargeState) : ℕ :=
  if s.currentCompression ≤ cfg.settleEps then 0
  else if s.holdLockout = true then 0
  else if s.chargeEfficiency ≤ cfg.deadEfficiency then s.perfectStreak
  else
    match launchRating cfg s with
    | Rating.PERFECT => s.perfectStreak + 1
    | _ => 0

/-- `streakBonus = slime.perfectStreak >= 3 ? 2.0 : 1.0` (part_001 line 424),
evaluated after the streak update. -/
def streakBonus (newStreak : ℕ) : ℚ :=
  if 3 ≤ newStreak then 2 else 1

/-- `streakMultiplier = (streakBonus > 1.0) ? 1.5 : 1.0` (part_001 line 442). -/
def streakMultiplier (newStreak : ℕ) : ℚ :=
  if 1 < streakBonus newStreak then 3 / 2 else 1

/-- Claim C1.  The computed rating is FAILED exactly when `holdLockout` is set
or `chargeEfficiency` is at most `deadEfficiency`; and a release attempted
with `holdLockout` set never launches, so a cycle ending with lockout is a
failed cycle. -/
theorem release_failed_iff_lockout_or_dead (cfg : GroundCfg) (s : ChargeState) :
    (launchRating cfg s = Rating.FAILED ↔
      s.holdLockout = true ∨ s.chargeEfficiency ≤ cfg.deadEfficiency) ∧
    (s.holdLockout = true → tryLaunchOutcome cfg s = ReleaseOutcome.settled) := by
  constructor
  · unfold launchRating
    split_ifs <;> (try simp_all)
    split_ifs <;> simp_all
  · intro hlock
    unfold tryLaunchOutcome
    split_ifs <;> simp_all

/-- A release state with the hold lockout latched. -/
def lockoutReleaseState : ChargeState where
  currentCompression := 10
  targetCompression := 10
  reachedPeak := true
  isInYellowZone := false
  postPeakHoldTime := 1
  holdLockout := true
  chargeEfficiency := 1
  landingDifficulty := 1
  perfectStreak := 2
  lastApexHeight := 500
  landingFallDistance := 500
  landingFastFallDistance := 250

/-- Witness for `release_failed_iff_lockout_or_dead`: at the concrete
locked-out state the rating is FAILED and the release settles. -/
theorem release_failed_iff_lockout_or_dead_witness :
    launchRating defaultGroundCfg lockoutReleaseState = Rating.FAILED ∧
    tryLaunchOutcome defaultGroundCfg lockoutReleaseState =
      ReleaseOutcome.settled :=
  ⟨(release_failed_iff_lockout_or_dead defaultGroundCfg
      lockoutReleaseState).1.mpr (Or.inl (by with_unfolding_all decide)),
    (release_failed_iff_lockout_or_dead defaultGroundCfg
      lockoutReleaseState).2 (by with_unfolding_all decide)⟩

/-- A release state that reaches the dead-efficiency guard of
`tryLaunchActiveOrSettle`: compression well above `settleEps`, no hold
lockout, efficiency 0.04 below the dead threshold 0.05, and a running
streak of 2. -/
def deadEffReleaseState : ChargeState where
  currentCompression := 10
  targetCompression := 10
  reachedPeak := true
  isInYellowZone := false
  postPeakHoldTime := 1
  holdLockout := false
  chargeEfficiency := 1 / 25
  landingDifficulty := 1
  perfectStreak := 2
  lastApexHeight := 500
  landingFallDistance := 500
  landingFastFallDistance := 250

/-- Claim C2, counterexample.  The dead-efficiency release path settles the
cycle to idle (a non-PERFECT outcome) but leaves `perfectStreak` untouched
instead of resetting it to 0: the guard at part_001 lines 348-352 returns
without the `perfectStreak = 0` assignment present in its two sibling
guards. -/
theorem deadEff_settle_keeps_streak :
    tryLaunchOutcome defaultGroundCfg deadEffReleaseState = ReleaseOutcome.settled ∧
    streakAfterRelease defaultGroundCfg deadEffReleaseState = 2 ∧
    streakAfterRelease defaultGroundCfg deadEffReleaseState ≠ 0 := by
  refine ⟨by with_unfolding_all decide, by with_unfolding_all decide,
    by with_unfolding_all decide⟩

/-- Claim C2, amended.  The streak is reset to 0 on a settle caused by low
compression or by hold lockout and on any non-PERFECT launch, and it is
incremented on a PERFECT launch; but the settle caused by dead efficiency
leaves the streak unchanged.  The 1.5 streak multiplier is applied exactly
when the updated streak is at least 3. -/
theorem streak_bookkeeping (cfg : GroundCfg) (s : ChargeState) :
    (s.currentCompression ≤ cfg.settleEps → streakAfterRelease cfg s = 0) ∧
    (s.holdLockout = true → ¬s.currentCompression ≤ cfg.settleEps →
      streakAfterRelease cfg s = 0) ∧
    (¬s.currentCompression ≤ cfg.settleEps → s.holdLockout = false →
      s.chargeEfficiency ≤ cfg.deadEfficiency →
      streakAfterRelease cfg s = s.perfectStreak) ∧
    (tryLaunchOutcome cfg s = ReleaseOutcome.launched Rating.PERFECT →
      streakAfterRelease cfg s = s.perfectStreak + 1) ∧
    (∀ r, r ≠ Rating.PERFECT → tryLaunchOutcome cfg s = ReleaseOutcome.launched r →
      streakAfterRelease cfg s = 0) ∧
    (∀ n : ℕ, streakMultiplier n = 3 / 2 ↔ 3 ≤ n) := by
  refine ⟨?_, ?_, ?_, ?_, ?_, ?_⟩
  · intro h; unfold streakAfterRelease; simp [h]
  · intro hl hc; unfold streakAfterRelease; simp [hl, hc]
  · intro hc hl he; unfold streakAfterRelease; simp [hc, hl, he]
  · intro hlaunch
    unfold tryLaunchOutcome at hlaunch
    unfold streakAfterRelease
    split_ifs at hlaunch ⊢
    all_goals simp_all
  · intro r hr hlaunch
    unfold tryLaunchOutcome at hlaunch
    unfold streakAfterRelease
    split_ifs at hlaunch ⊢
    all_goals simp_all
  · intro n
    unfold streakMultiplier streakBonus
    by_cases h : 3 ≤ n
    · simp only [if_pos h]
      norm_num [h]
    · simp only [if_neg h]
      norm_num [h]

/-- A release state rated PERFECT (in the yellow zone, before the peak) with
a running streak of 2. -/
def perfectReleaseState : ChargeState where
  currentCompression := 10
  targetCompression := 10
  reachedPeak := false
  isInYellowZone := true
  postPeakHoldTime := 0
  holdLockout := false
  chargeEfficiency := 1
  landingDifficulty := 1
  perfectStreak := 2
  lastApexHeight := 500
  landingFallDistance := 500
  landingFastFallDistance := 500

/-- Witness for `streak_bookkeeping`: the concrete PERFECT release above
increments the streak from 2 to 3. -/
theorem streak_bookkeeping_witness :
    streakAfterRelease defaultGroundCfg perfectReleaseState = 2 + 1 :=
  (streak_bookkeeping defaultGroundCfg perfectReleaseState).2.2.2.1
    (by with_unfolding_all decide)

/-- The press ratio of the PERFECT branch (part_001 lines 432-434):
`fallDist = max(1, landingFallDistance || lastApexHeight)` (a zero fall
distance falls back to the apex height), `fastDist = max(0, ...)`, and the
quotient clamped to [0, 1].  The source calls it `distFactor`. -/
def distFactor (s : ChargeState) : ℚ :=
  let fallDist := max 1 (if s.landingFallDistance = 0 then s.lastApexHeight
    else s.landingFallDistance)
  let fastDist := max 0 s.landingFastFallDistance
  clampQ (fastDist / fallDist) 0 1

/-- `growthRate = 0.15 + 0.05 * log10(1 + lastApexHeight / 100)`
(part_001 lines 437-439); `log10F` stands for `Math.log10`. -/
def growthRate (log10F : ℚ → ℚ) (lastApexHeight : ℚ) : ℚ :=
  15 / 100 + (5 / 100) * log10F (1 + lastApexHeight / 100)

/-- The PERFECT target-height multiplier (part_001 lines 448-450):
`minMult + (maxMult - minMult) * distFactor` with `minMult = 0.85` and
`maxMult = 1.0 + growthRate * streakMultiplier`. -/
def perfectTargetMult (gr sm r : ℚ) : ℚ :=
  let minMult : ℚ := 85 / 100
  let maxMult : ℚ := 1 + gr * sm
  minMult + (maxMult - minMult) * r

/-- Target height of `launchActiveControlled` before the minimum-height
floor (part_001 lines 428-469): the PERFECT lerp formula, or the fixed
0.70 / 0.40 penalties for NORMAL / FAILED. -/
def launchTargetH (log10F : ℚ → ℚ) (s : ChargeState) (rating : Rating)
    (newStreak : ℕ) : ℚ :=
  match rating with
  | Rating.PERFECT =>
      s.lastApexHeight *
        perfectTargetMult (growthRate log10F s.lastApexHeight)
          (streakMultiplier newStreak) (distFactor s)
  | Rating.NORMAL => s.lastApexHeight * (70 / 100)
  | Rating.FAILED => s.lastApexHeight * (40 / 100)

/-- Launch velocity (part_001 lines 471-489): floor the target height at 50,
convert via `sqrt(2 g targetH)` (`sqrtF` stands for `Math.sqrt`), floor at
`|baseLaunchVelocity|`, apply the soft cap only for non-PERFECT ratings, and
finally clamp to `hardCapVelocity`. -/
def launchVelocity (cfg : GroundCfg) (sqrtF : ℚ → ℚ) (rating : Rating)
    (targetH0 : ℚ) : ℚ :=
  let targetH := max targetH0 50
  let vTarget := sqrtF (2 * cfg.gravity * targetH)
  let vFloored := max vTarget |cfg.baseLaunchVelocity|
  let vSoft :=
    if rating = Rating.PERFECT then vFloored
    else if cfg.softCapVelocity < vFloored then
      cfg.softCapVelocity + (vFloored - cfg.softCapVelocity) * cfg.softCapFactor
    else vFloored
  min vSoft cfg.hardCapVelocity

/-- Linear interpolation as the specification writes it:
`lerp(a, b, t) = a + (b - a) * t`. -/
def lerpQ (a b t : ℚ) : ℚ := a + (b - a) * t

/-- Claim C3.  On a PERFECT release the target height is
`lastApexHeight * lerp(0.85, 1 + growthRate * streakMultiplier, pressRatio)`;
it is strictly increasing in the press ratio, equals `0.85 * lastApexHeight`
at press ratio 0, and the launch velocity is
`sqrt(2 g max(targetHeight, 50))` floored at the base launch velocity and
clamped to the hard cap, with no soft cap.  The hypotheses record that the
apex height is positive and that `log10` is nonnegative on the argument
`1 + lastApexHeight / 100 ≥ 1`. -/
theorem perfect_launch_formula (log10F sqrtF : ℚ → ℚ) (cfg : GroundCfg)
    (s : ChargeState) (newStreak : ℕ)
    (hH : 0 < s.lastApexHeight)
    (hlog : 0 ≤ log10F (1 + s.lastApexHeight / 100)) :
    (launchTargetH log10F s Rating.PERFECT newStreak =
      s.lastApexHeight *
        lerpQ (85 / 100)
          (1 + growthRate log10F s.lastApexHeight * streakMultiplier newStreak)
          (distFactor s)) ∧
    (∀ r1 r2 : ℚ, r1 < r2 →
      s.lastApexHeight *
          perfectTargetMult (growthRate log10F s.lastApexHeight)
            (streakMultiplier newStreak) r1 <
        s.lastApexHeight *
          perfectTargetMult (growthRate log10F s.lastApexHeight)
            (streakMultiplier newStreak) r2) ∧
    (s.lastApexHeight *
        perfectTargetMult (growthRate log10F s.lastApexHeight)
          (streakMultiplier newStreak) 0 =
      (85 / 100) * s.lastApexHeight) ∧
    (launchVelocity cfg sqrtF Rating.PERFECT
        (launchTargetH log10F s Rating.PERFECT newStreak) =
      min
        (max
          (sqrtF (2 * cfg.gravity *
            max (launchTargetH log10F s Rating.PERFECT newStreak) 50))
          |cfg.baseLaunchVelocity|)
        cfg.hardCapVelocity) := by
  have hgr : 15 / 100 ≤ growthRate log10F s.lastApexHeight := by
    unfold growthRate
    nlinarith
  have hsm : 1 ≤ streakMultiplier newStreak := by
    unfold streakMultiplier
    split_ifs <;> norm_num
  refine ⟨?_, ?_, ?_, ?_⟩
  · unfold launchTargetH perfectTargetMult lerpQ
    ring
  · intro r1 r2 hr
    have hslope : 0 < 1 + growthRate log10F s.lastApexHeight *
        streakMultiplier newStreak - 85 / 100 := by
      nlinarith
    have : perfectTargetMult (growthRate log10F s.lastApexHeight)
        (streakMultiplier newStreak) r1 <
        perfectTargetMult (growthRate log10F s.lastApexHeight)
          (streakMultiplier newStreak) r2 := by
      unfold perfectTargetMult
      nlinarith
    exact mul_lt_mul_of_pos_left this hH
  · unfold perfectTargetMult
    ring
  · unfold launchVelocity
    simp

/-- Witness for `perfect_launch_formula` at apex height 500, streak 3, with
`log10F = 0` and `sqrtF = 0` (both satisfy the assumed facts). -/
theorem perfect_launch_formula_witness :
    (0 : ℚ) < 500 ∧
    perfectReleaseState.lastApexHeight *
        perfectTargetMult (growthRate (fun _ => 0) perfectReleaseState.lastApexHeight)
          (streakMultiplier 3) 0 =
      (85 / 100) * perfectReleaseState.lastApexHeight :=
  ⟨by norm_num,
    (perfect_launch_formula (fun _ => 0) (fun _ => 0) defaultGroundCfg
      perfectReleaseState 3 (by with_unfolding_all decide)
      (by norm_num)).2.2.1⟩

/-- The mutable fields of `SlimeHealthManager` (src/unnamed/part_002)
touched by the landing/damage path. -/
structure HealthState where
  currentHealth : ℚ
  maxHealth : ℚ
  isDead : Bool
  invincible : Bool
  healthBarVisibleTimer : ℚ
deriving DecidableEq, Repr

/-- `SlimeHealthManager.die` (part_002 lines 166-174): no-op when invincible,
otherwise marks dead and zeroes health. -/
def dieHealth (hs : HealthState) : HealthState :=
  if hs.invincible = true then hs
  else { hs with isDead := true, currentHealth := 0 }

/-- `SlimeHealthManager.calculateDamage` (part_002 lines 117-138): 0 inside
the 100 m safe zone, instant kill at or above 1000 m, and otherwise the
linear interpolation `100 * (h - 100) / 900` clamped to [0, 100]. -/
def calculateDamage (hs : HealthState) (heightMeters : ℚ) : ℚ :=
  if heightMeters ≤ 100 then 0
  else if 1000 ≤ heightMeters then hs.currentHealth
  else min 100 (max 0 (100 * ((heightMeters - 100) / 900)))

/-- `SlimeHealthManager.takeDamage` (part_002 lines 146-161). -/
def takeDamage (hs : HealthState) (damage : ℚ) : HealthState :=
  if hs.isDead = true ∨ hs.invincible = true ∨ damage ≤ 0 then hs
  else
    let hs1 := { hs with currentHealth := max 0 (hs.currentHealth - damage),
                         healthBarVisibleTimer := 3 / 2 }
    if hs1.currentHealth ≤ 0 then dieHealth hs1 else hs1

/-- `SlimeHealthManager.onLanding` (part_002 lines 73-103); `ppm` is
`GameConfig.display.pixelsPerMeter`.  Instant death on hold lockout above
the 100 m safe zone; PERFECT never damages; no damage inside the safe zone;
NORMAL takes the calculated damage; FAILED takes none. -/
def onLanding (ppm : ℚ) (hs : HealthState) (heightPixels : ℚ)
    (rating : Rating) (holdLockout : Bool) : HealthState :=
  if hs.isDead = true ∨ hs.invincible = true then hs
  else
    let heightMeters := heightPixels / ppm
    if holdLockout = true ∧ 100 < heightMeters then dieHealth hs
    else if rating = Rating.PERFECT then hs
    else if heightMeters ≤ 100 then hs
    else if rating = Rating.NORMAL then
      takeDamage hs (calculateDamage hs heightMeters)
    else hs

/-- Claim C4.  Every landing that the release path reports with rating
PERFECT leaves the health state unchanged: a PERFECT rating forces
`holdLockout = false`, and `onLanding` applies no damage for PERFECT. -/
theorem perfect_landing_never_damages (cfg : GroundCfg) (s : ChargeState)
    (ppm : ℚ) (hs : HealthState) (heightPixels : ℚ)
    (hrate : launchRating cfg s = Rating.PERFECT) :
    onLanding ppm hs heightPixels Rating.PERFECT s.holdLockout = hs := by
  have hlock : s.holdLockout = false := by
    by_cases hl : s.holdLockout = true
    · exfalso
      simp only [launchRating] at hrate
      rw [if_pos (Or.inl hl)] at hrate
      exact Rating.noConfusion hrate
    · simpa using hl
  unfold onLanding
  rw [hlock]
  split_ifs with h1 h2 <;> simp_all

/-- Witness for `perfect_landing_never_damages`: the concrete PERFECT
release state, a 25000 px (500 m) fall, 50 px per meter, full health. -/
theorem perfect_landing_never_damages_witness :
    onLanding 50 ⟨100, 100, false, false, 0⟩ 25000 Rating.PERFECT
      perfectReleaseState.holdLockout = ⟨100, 100, false, false, 0⟩ :=
  perfect_landing_never_damages defaultGroundCfg perfectReleaseState 50
    ⟨100, 100, false, false, 0⟩ 25000 (by with_unfolding_all decide)

/-- The clamped target count of `MonsterManager.spawnApexMonsters`
(Pickup.ts lines 693-709): `baseCount` (default 4) at or below the reference
height (default 50 m), otherwise
`floor(baseCount + log2(apex / refHeight) * countGrowthFactor)` with growth
factor 2.5, and in either case clamped to `[baseCount, maxCount] = [4, 12]`;
`log2F` stands for `Math.log2`. -/
def spawnApexTargetCount (log2F : ℚ → ℚ) (apexHeightM : ℚ) : ℤ :=
  let t : ℤ :=
    if apexHeightM ≤ 50 then 4
    else ⌊(4 : ℚ) + log2F (apexHeightM / 50) * (5 / 2)⌋
  max 4 (min 12 t)

/-- The final spawn count (Pickup.ts line 712):
`max(1, round(targetCount * countMultiplier))`. -/
def spawnApexFinalCount (log2F : ℚ → ℚ) (apexHeightM countMultiplier : ℚ) : ℤ :=
  max 1 (round ((spawnApexTargetCount log2F apexHeightM : ℚ) * countMultiplier))

/-- Claim C5.  At or below the 50 m reference height the clamped target is
the base count 4 and, with multiplier 1, so is the final count; the final
count is `max(1, round(target * multiplier))`; and for a fixed nonnegative
multiplier the final count is non-decreasing in the apex height, assuming
only that `log2` is monotone. -/
theorem spawn_count_formula (log2F : ℚ → ℚ) (hmono : Monotone log2F)
    (apexM m : ℚ) :
    (apexM ≤ 50 → spawnApexTargetCount log2F apexM = 4) ∧
    (spawnApexFinalCount log2F apexM m =
      max 1 (round ((spawnApexTargetCount log2F apexM : ℚ) * m))) ∧
    (apexM ≤ 50 → spawnApexFinalCount log2F apexM 1 = 4) ∧
    (0 ≤ m → ∀ a2, apexM ≤ a2 →
      spawnApexFinalCount log2F apexM m ≤ spawnApexFinalCount log2F a2 m) := by
  have hbase : ∀ a : ℚ, a ≤ 50 → spawnApexTargetCount log2F a = 4 := by
    intro a ha
    unfold spawnApexTargetCount
    rw [if_pos ha]
    norm_num
  have htmono : ∀ a1 a2 : ℚ, a1 ≤ a2 →
      spawnApexTargetCount log2F a1 ≤ spawnApexTargetCount log2F a2 := by
    intro a1 a2 h12
    by_cases h1 : a1 ≤ 50
    · rw [hbase a1 h1]
      unfold spawnApexTargetCount
      exact le_max_left _ _
    · have h2 : ¬a2 ≤ 50 := fun hc => h1 (le_trans h12 hc)
      unfold spawnApexTargetCount
      rw [if_neg h1, if_neg h2]
      have hfl : ⌊(4 : ℚ) + log2F (a1 / 50) * (5 / 2)⌋ ≤
          ⌊(4 : ℚ) + log2F (a2 / 50) * (5 / 2)⌋ := by
        apply Int.floor_le_floor
        have : log2F (a1 / 50) ≤ log2F (a2 / 50) := by
          apply hmono
          apply div_le_div_of_nonneg_right h12
          norm_num
        nlinarith
      exact max_le_max (le_refl _) (min_le_min (le_refl _) hfl)
  refine ⟨hbase apexM, rfl, ?_, ?_⟩
  · intro ha
    unfold spawnApexFinalCount
    rw [hbase apexM ha]
    norm_num
  · intro hm a2 h12
    unfold spawnApexFinalCount
    apply max_le_max (le_refl _)
    rw [round_eq, round_eq]
    apply Int.floor_le_floor
    have : (spawnApexTargetCount log2F apexM : ℚ) ≤
        (spawnApexTargetCount log2F a2 : ℚ) := by
      exact_mod_cast htmono apexM a2 h12
    nlinarith

/-- Witness for `spawn_count_formula` with the identity as the monotone
`log2` stand-in: at apex 30 m and multiplier 1 the final count is 4, and
the count at 30 m is at most the count at 40 m. -/
theorem spawn_count_formula_witness :
    spawnApexFinalCount id 30 1 = 4 ∧
    spawnApexFinalCount id 30 1 ≤ spawnApexFinalCount id 40 1 :=
  ⟨(spawn_count_formula id monotone_id 30 1).2.2.1 (by norm_num),
    (spawn_count_formula id monotone_id 30 1).2.2.2 (by norm_num) 40 (by norm_num)⟩

/-- Spawn band start (Pickup.ts line 681), `apexHeightM * director.apexRangeStart`.
Modelled from the spec: `director.apexRangeStart` comes from the game
configuration module, which is not among the sources; the specification
fixes it at 0.85. -/
def rangeStartM (apexHeightM : ℚ) : ℚ := apexHeightM * (85 / 100)

/-- Dynamic band end fraction (Pickup.ts lines 686-690):
`minEnd + (baseEnd - minEnd) * exp(-apexHeightM / tau)` with the source
defaults `baseEnd = 0.98`, `minEnd = 0.91`, `tau = 600`; `expF` stands for
`Math.exp`. -/
def dynamicRangeEnd (expF : ℚ → ℚ) (apexHeightM : ℚ) : ℚ :=
  91 / 100 + (98 / 100 - 91 / 100) * expF (-apexHeightM / 600)

/-- Spawn band end (Pickup.ts line 691), `apexHeightM * dynamicRangeEnd`. -/
def rangeEndM (expF : ℚ → ℚ) (apexHeightM : ℚ) : ℚ :=
  apexHeightM * dynamicRangeEnd expF apexHeightM

/-- Claim C6.  For every positive apex height the spawn band satisfies
`rangeStartM = 0.85 * apex < rangeEndM ≤ apex`.  The hypotheses record the
two facts of `exp` the bound uses: positivity everywhere and being at most
1 on nonpositive arguments. -/
theorem spawn_band_bounds (expF : ℚ → ℚ) (hpos : ∀ x, 0 < expF x)
    (hle1 : ∀ x, x ≤ 0 → expF x ≤ 1) (apexM : ℚ) (hapex : 0 < apexM) :
    rangeStartM apexM = apexM * (85 / 100) ∧
    rangeStartM apexM < rangeEndM expF apexM ∧
    rangeEndM expF apexM ≤ apexM := by
  have he1 : 0 < expF (-apexM / 600) := hpos _
  have he2 : expF (-apexM / 600) ≤ 1 := by
    apply hle1
    nlinarith
  refine ⟨rfl, ?_, ?_⟩
  · unfold rangeStartM rangeEndM dynamicRangeEnd
    nlinarith
  · unfold rangeEndM dynamicRangeEnd
    nlinarith

/-- Witness for `spawn_band_bounds` at apex 100 m with the constant 1/2
standing in for `exp` (positive and at most 1). -/
theorem spawn_band_bounds_witness :
    rangeStartM 100 < rangeEndM (fun _ => 1 / 2) 100 ∧
    rangeEndM (fun _ => 1 / 2) 100 ≤ 100 :=
  ⟨(spawn_band_bounds (fun _ => 1 / 2) (fun _ => by norm_num)
      (fun _ _ => by norm_num) 100 (by norm_num)).2.1,
    (spawn_band_bounds (fun _ => 1 / 2) (fun _ => by norm_num)
      (fun _ _ => by norm_num) 100 (by norm_num)).2.2⟩

/-- The four monster types of `MonsterManager.selectMonsterType`
(Pickup.ts). -/
inductive MonsterType where
  | A01
  | A02
  | A03
  | CloudA
deriving DecidableEq, Repr

/-- A01 weight curve (Pickup.ts lines 914-924): 1 below 200 m, linear
1 to 0 on [200, 600), 0 above. -/
def a01Weight (h : ℚ) : ℚ :=
  if h < 200 then 1
  else if h < 600 then 1 - (h - 200) / 400
  else 0

/-- A02 weight curve (Pickup.ts lines 926-937): linear 0 to 1 on [200, 600),
`exp(-3 * progress)` on [600, 1000), 0 elsewhere; `expF` stands for
`Math.exp`. -/
def a02Weight (expF : ℚ → ℚ) (h : ℚ) : ℚ :=
  if 200 ≤ h ∧ h < 600 then (h - 200) / 400
  else if 600 ≤ h ∧ h < 1000 then expF (-3 * ((h - 600) / 400))
  else 0

/-- A03 weight curve (Pickup.ts lines 939-948): linear 0 to 1 on [600, 1000),
1 at and above 1000 m, 0 below 600 m. -/
def a03Weight (h : ℚ) : ℚ :=
  if 600 ≤ h ∧ h < 1000 then (h - 600) / 400
  else if 1000 ≤ h then 1
  else 0

/-- CloudA weight curve (Pickup.ts lines 950-961): linear 0 to 1 on
[400, 800), linear 1 to 0.1 on [800, 1100), 0 elsewhere. -/
def cloudWeight (h : ℚ) : ℚ :=
  if 400 ≤ h ∧ h < 800 then (h - 400) / 400
  else if 800 ≤ h ∧ h < 1100 then 1 - ((h - 800) / 300) * (9 / 10)
  else 0

/-- Sum of the four weight curves at one altitude. -/
def totalMonsterWeight (expF : ℚ → ℚ) (h : ℚ) : ℚ :=
  a01Weight h + a02Weight expF h + a03Weight h + cloudWeight h

/-- Claim C7.  On the whole band [0, 1100] the four weights sum to a strictly
positive value: there is no dead zone.  Only positivity of `exp` is assumed
(it makes the A02 exponential tail nonnegative). -/
theorem monster_weights_no_dead_zone (expF : ℚ → ℚ) (hpos : ∀ x, 0 < expF x)
    (h : ℚ) (_h0 : 0 ≤ h) (h1100 : h ≤ 1100) :
    0 < totalMonsterWeight expF h := by
  have ha01 : 0 ≤ a01Weight h := by
    unfold a01Weight
    split_ifs with hA hB
    · norm_num
    · linarith
    · norm_num
  have ha02 : 0 ≤ a02Weight expF h := by
    unfold a02Weight
    split_ifs with hA hB
    · linarith [hA.1]
    · exact le_of_lt (hpos _)
    · norm_num
  have ha03 : 0 ≤ a03Weight h := by
    unfold a03Weight
    split_ifs with hA hB
    · linarith [hA.1]
    · norm_num
    · norm_num
  have hacl : 0 ≤ cloudWeight h := by
    unfold cloudWeight
    split_ifs with hA hB
    · linarith [hA.1]
    · linarith [hB.2]
    · norm_num
  unfold totalMonsterWeight
  rcases lt_or_le h 200 with h200 | h200
  · have : a01Weight h = 1 := by
      unfold a01Weight
      rw [if_pos h200]
    linarith
  rcases lt_or_le h 600 with h600 | h600
  · have e1 : a01Weight h = 1 - (h - 200) / 400 := by
      unfold a01Weight
      rw [if_neg (not_lt.2 h200), if_pos h600]
    have e2 : a02Weight expF h = (h - 200) / 400 := by
      unfold a02Weight
      rw [if_pos ⟨h200, h600⟩]
    rw [e1, e2]
    linarith
  rcases lt_or_le h 800 with h800 | h800
  · have : cloudWeight h = (h - 400) / 400 := by
      unfold cloudWeight
      rw [if_pos ⟨by linarith, h800⟩]
    rw [this]
    have : 0 < (h - 400) / 400 := by
      apply div_pos <;> linarith
    linarith
  rcases lt_or_le h 1100 with hc | hc
  · have : cloudWeight h = 1 - ((h - 800) / 300) * (9 / 10) := by
      unfold cloudWeight
      rw [if_neg (by rintro ⟨-, hlt⟩; linarith), if_pos ⟨h800, hc⟩]
    rw [this]
    have : (h - 800) / 300 < 1 := by
      rw [div_lt_one (by norm_num)]
      linarith
    nlinarith
  · have hh : h = 1100 := le_antisymm h1100 hc
    have : a03Weight h = 1 := by
      unfold a03Weight
      rw [if_neg (by rintro ⟨-, hlt⟩; linarith), if_pos (by linarith)]
    linarith

/-- Witness for `monster_weights_no_dead_zone`: with the constant 1 standing
in for `exp`, the weight total is positive at all twelve sample altitudes
named by the specification. -/
theorem monster_weights_no_dead_zone_witness :
    0 < totalMonsterWeight (fun _ => 1) 0 ∧
    0 < totalMonsterWeight (fun _ => 1) 199 ∧
    0 < totalMonsterWeight (fun _ => 1) 200 ∧
    0 < totalMonsterWeight (fun _ => 1) 400 ∧
    0 < totalMonsterWeight (fun _ => 1) 599 ∧
    0 < totalMonsterWeight (fun _ => 1) 600 ∧
    0 < totalMonsterWeight (fun _ => 1) 799 ∧
    0 < totalMonsterWeight (fun _ => 1) 800 ∧
    0 < totalMonsterWeight (fun _ => 1) 999 ∧
    0 < totalMonsterWeight (fun _ => 1) 1000 ∧
    0 < totalMonsterWeight (fun _ => 1) 1099 ∧
    0 < totalMonsterWeight (fun _ => 1) 1100 := by
  have hp : ∀ x : ℚ, 0 < (fun _ : ℚ => (1 : ℚ)) x := fun _ => by norm_num
  refine ⟨?_, ?_, ?_, ?_, ?_, ?_, ?_, ?_, ?_, ?_, ?_, ?_⟩ <;>
    exact monster_weights_no_dead_zone (fun _ => 1) hp _ (by norm_num) (by norm_num)

/-- The candidate list of `selectMonsterType` (Pickup.ts lines 963-977):
each type qualifies when its weight exceeds 0.01, in the fixed order
A01, A02, A03, CloudA. -/
def monsterCandidates (w01 w02 w03 wCl : ℚ) : List (MonsterType × ℚ) :=
  (if 1 / 100 < w01 then [(MonsterType.A01, w01)] else []) ++
    (if 1 / 100 < w02 then [(MonsterType.A02, w02)] else []) ++
    (if 1 / 100 < w03 then [(MonsterType.A03, w03)] else []) ++
    (if 1 / 100 < wCl then [(MonsterType.CloudA, wCl)] else [])

/-- The weighted-draw loop (Pickup.ts lines 989-995): subtract each weight
from the running random value and return the first candidate at which it
drops to 0 or below. -/
def weightedDraw : ℚ → List (MonsterType × ℚ) → Option MonsterType
  | _, [] => none
  | r, (t, w) :: rest =>
      if r - w ≤ 0 then some t else weightedDraw (r - w) rest

/-- The draw of `selectMonsterType` after the weights are computed
(Pickup.ts lines 963-997): default to A03 when no candidate qualifies,
otherwise draw with `rand * totalWeight` and fall back to the first
candidate. -/
def selectFromWeights (w01 w02 w03 wCl rand : ℚ) : MonsterType :=
  match monsterCandidates w01 w02 w03 wCl with
  | [] => MonsterType.A03
  | c :: cs =>
      match weightedDraw (rand * ((c :: cs).map Prod.snd).sum) (c :: cs) with
      | some t => t
      | none => c.1

/-- `MonsterManager.selectMonsterType` (Pickup.ts lines 913-998): the four
weight curves at altitude `h` followed by the threshold draw; `rand` stands
for the `Math.random()` sample. -/
def selectMonsterType (expF : ℚ → ℚ) (h rand : ℚ) : MonsterType :=
  selectFromWeights (a01Weight h) (a02Weight expF h) (a03Weight h)
    (cloudWeight h) rand

/-- Claim C8.  The selection is total: it always produces one of the four
types, and whenever no weight exceeds the 0.01 qualification threshold it
returns the high-altitude type A03; `selectMonsterType` is exactly this
draw applied to the four weight curves. -/
theorem select_monster_total (w01 w02 w03 wCl rand : ℚ) :
    (selectFromWeights w01 w02 w03 wCl rand = MonsterType.A01 ∨
      selectFromWeights w01 w02 w03 wCl rand = MonsterType.A02 ∨
      selectFromWeights w01 w02 w03 wCl rand = MonsterType.A03 ∨
      selectFromWeights w01 w02 w03 wCl rand = MonsterType.CloudA) ∧
    (w01 ≤ 1 / 100 → w02 ≤ 1 / 100 → w03 ≤ 1 / 100 → wCl ≤ 1 / 100 →
      selectFromWeights w01 w02 w03 wCl rand = MonsterType.A03) ∧
    (∀ expF h, selectMonsterType expF h rand =
      selectFromWeights (a01Weight h) (a02Weight expF h) (a03Weight h)
        (cloudWeight h) rand) := by
  refine ⟨?_, ?_, fun _ _ => rfl⟩
  · rcases selectFromWeights w01 w02 w03 wCl rand with _ | _ | _ | _ <;> simp
  · intro h1 h2 h3 h4
    unfold selectFromWeights monsterCandidates
    rw [if_neg (not_lt.2 h1), if_neg (not_lt.2 h2), if_neg (not_lt.2 h3),
      if_neg (not_lt.2 h4)]
    rfl

/-- Witness for `select_monster_total`: with all four weights at the
threshold the draw defaults to A03. -/
theorem select_monster_total_witness :
    selectFromWeights (1 / 100) (1 / 100) (1 / 100) (1 / 100) 0 =
      MonsterType.A03 :=
  (select_monster_total (1 / 100) (1 / 100) (1 / 100) (1 / 100) 0).2.1
    (le_refl _) (le_refl _) (le_refl _) (le_refl _)

/-- Neighbor-coupling constant of `Ground` (Ground.ts line 26). -/
def TENSION : ℚ := 180

/-- Restoring-spring constant of `Ground` (Ground.ts line 27). -/
def STIFFNESS : ℚ := 90

/-- Damping constant of `Ground` (Ground.ts line 28). -/
def DAMPING : ℚ := 18

/-- Maximum deformation depth of `Ground` (Ground.ts line 29). -/
def MAX_OFFSET : ℚ := 60

/-- One ground column: offset, velocity, and the external force assigned to
it for the current tick (Ground.ts `yOffset`, `yVel`, `force`). -/
structure GroundCol where
  yOffset : ℚ
  yVel : ℚ
  force : ℚ
deriving DecidableEq, Repr

/-- The per-substep clamp (Ground.ts line 212):
`Math.max(-MAX_OFFSET * 0.3, Math.min(MAX_OFFSET, y))`. -/
def clampOffset (y : ℚ) : ℚ :=
  max (-(MAX_OFFSET * (3 / 10))) (min MAX_OFFSET y)

/-- The in-place column sweep of one substep (Ground.ts lines 195-213).
The loop reads the already-updated left neighbor (`prevNew`; the first
column reads its own old value via the `max(0, i-1)` index), the
not-yet-updated right neighbor (the last column reads its own old value via
`min(n-1, i+1)`), integrates `a = TENSION * laplacian - STIFFNESS * y -
DAMPING * v + force`, and clamps the new offset. -/
def substepGo (h : ℚ) : Option ℚ → List GroundCol → List GroundCol
  | _, [] => []
  | prevNew, c :: rest =>
      let y := c.yOffset
      let yL := prevNew.getD y
      let yR := match rest with
        | [] => y
        | c2 :: _ => c2.yOffset
      let a := TENSION * (yL - 2 * y + yR) - STIFFNESS * y - DAMPING * c.yVel +
        c.force
      let v2 := c.yVel + a * h
      let y2 := clampOffset (y + v2 * h)
      ⟨y2, v2, c.force⟩ :: substepGo h (some y2) rest

/-- One integration substep over the whole field. -/
def groundSubstep (h : ℚ) (cols : List GroundCol) : List GroundCol :=
  substepGo h none cols

/-- One tick of the ground physics (Ground.ts lines 190-214): `subSteps = 2`
substeps of size `h = dt / 2`.  The per-column forces are part of the state
and cover any value the Gaussian pressure profile can assign. -/
def groundIntegrate (dt : ℚ) (cols : List GroundCol) : List GroundCol :=
  groundSubstep (dt / 2) (groundSubstep (dt / 2) cols)

/-- The clamp output always lies in `[-0.3 * MAX_OFFSET, MAX_OFFSET]`. -/
theorem clampOffset_bounds (y : ℚ) :
    -(MAX_OFFSET * (3 / 10)) ≤ clampOffset y ∧ clampOffset y ≤ MAX_OFFSET := by
  unfold clampOffset MAX_OFFSET
  constructor
  · exact le_max_left _ _
  · apply max_le
    · norm_num
    · exact min_le_left _ _

/-- Every column written by the substep sweep carries a clamped offset. -/
theorem substepGo_mem_bounds (h : ℚ) (cols : List GroundCol) :
    ∀ (prev : Option ℚ) (c : GroundCol), c ∈ substepGo h prev cols →
      -(MAX_OFFSET * (3 / 10)) ≤ c.yOffset ∧ c.yOffset ≤ MAX_OFFSET := by
  induction cols with
  | nil =>
      intro prev c hc
      simp [substepGo] at hc
  | cons a rest ih =>
      intro prev c hc
      simp only [substepGo, List.mem_cons] at hc
      rcases hc with hceq | hmem
      · rw [hceq]
        exact clampOffset_bounds _
      · exact ih _ c hmem

/-- Claim C9.  After every integration substep, and hence after every full
tick, every column offset lies in `[-0.3 * MAX_OFFSET, MAX_OFFSET]`: the
clamp applied after each substep makes the range an invariant of the field
for arbitrary forces, step sizes and incoming states. -/
theorem ground_offset_invariant (dt h : ℚ) (cols : List GroundCol) :
    (∀ c ∈ groundSubstep h cols,
      -(MAX_OFFSET * (3 / 10)) ≤ c.yOffset ∧ c.yOffset ≤ MAX_OFFSET) ∧
    (∀ c ∈ groundIntegrate dt cols,
      -(MAX_OFFSET * (3 / 10)) ≤ c.yOffset ∧ c.yOffset ≤ MAX_OFFSET) := by
  constructor
  · intro c hc
    exact substepGo_mem_bounds h cols none c hc
  · intro c hc
    exact substepGo_mem_bounds (dt / 2) _ none c hc

/-- Witness for `ground_offset_invariant`: one column with a 100 px/s
downward kick, one substep of size 1/120; the updated column is
`⟨17/24, 85, 0⟩` and its offset is inside the clamp range. -/
theorem ground_offset_invariant_witness :
    -(MAX_OFFSET * (3 / 10)) ≤ (⟨17 / 24, 85, 0⟩ : GroundCol).yOffset ∧
      (⟨17 / 24, 85, 0⟩ : GroundCol).yOffset ≤ MAX_OFFSET :=
  (ground_offset_invariant (1 / 60) (1 / 120) [⟨0, 100, 0⟩]).1
    ⟨17 / 24, 85, 0⟩ (by with_unfolding_all decide)

/-- A single-impulse state: the smallest ground field the source can build
(`BLOCKS_PER_ROW = ceil(width / 64) + 4 = 5`) at rest, with one landing
kick of 100 px/s on the center column and no external force afterwards. -/
def impulseField : List GroundCol :=
  [⟨0, 0, 0⟩, ⟨0, 0, 0⟩, ⟨0, 100, 0⟩, ⟨0, 0, 0⟩, ⟨0, 0, 0⟩]

/-- One force-free tick at a fixed 1/15 s frame step. -/
def groundTick (cols : List GroundCol) : List GroundCol :=
  groundIntegrate (1 / 15) cols

/-- The trajectory of the single-impulse state under force-free ticks. -/
def groundTraj (n : ℕ) : List GroundCol := groundTick^[n] impulseField

set_option maxRecDepth 100000 in
/-- Claim C10, counterexample.  The constants do not put the column dynamics
in the critically/over-damped regime: for the unit-mass column equation
`y'' = -STIFFNESS * y - DAMPING * y'` that regime requires
`DAMPING^2 ≥ 4 * STIFFNESS`, but `18^2 = 324 < 360`; accordingly the
single-impulse trajectory oscillates, the center column offset being
positive after tick 1 and negative after tick 8. -/
theorem ground_oscillates_not_overdamped :
    ¬(4 * STIFFNESS ≤ DAMPING ^ 2) ∧
    0 < ((groundTraj 1).getD 2 ⟨0, 0, 0⟩).yOffset ∧
    ((groundTraj 8).getD 2 ⟨0, 0, 0⟩).yOffset < 0 := by
  refine ⟨by norm_num [STIFFNESS, DAMPING], ?_, ?_⟩
  · with_unfolding_all decide
  · with_unfolding_all decide

set_option maxRecDepth 100000 in
/-- Claim C10, amended.  The regime is (slightly) underdamped,
`DAMPING^2 = 324 < 360 = 4 * STIFFNESS`, so the impulse response is a
decaying oscillation rather than a monotone overdamped relaxation; the
offsets still die out: after 10 force-free ticks every column of the
single-impulse trajectory is within 0.5 px of rest. -/
theorem ground_impulse_decay_underdamped :
    DAMPING ^ 2 < 4 * STIFFNESS ∧
    ((groundTraj 10).all fun c => decide (|c.yOffset| < 1 / 2)) = true := by
  refine ⟨by norm_num [STIFFNESS, DAMPING], by with_unfolding_all decide⟩

end CrazyJumpy
